import Mathlib

/-!
Verification of the Dynamics 365 FO client core (`src/main.ts`, the variant in
`unnamed/part_001`, and the tool layer in the second half of `main.ts`).

The embedding translates the TypeScript source into Lean:
JavaScript strings become `List Char`, JSON values become the `Json`
inductive, absent properties (`undefined`) become `Option.none`, thrown
errors become `Except.error`, and the unbounded `while (nextLink)` loop
becomes fuel-indexed recursion whose fuel is justified by the finite-chain
hypothesis of the pagination claim.
-/

namespace D365

/-- JSON values as produced by `JSON.parse`; `null` is a value of its own,
mirroring JavaScript, and object fields keep insertion order. -/
inductive Json where
  | null : Json
  | bool (b : Bool) : Json
  | num (n : Int) : Json
  | str (s : List Char) : Json
  | arr (elems : List Json) : Json
  | obj (fields : List (List Char × Json)) : Json

/-- JavaScript truthiness of a JSON value: `null`, `false`, `0` and the
empty string are falsy; arrays and objects are always truthy. -/
def truthy : Json → Bool
  | .null => false
  | .bool b => b
  | .num n => n != 0
  | .str s => !s.isEmpty
  | .arr _ => true
  | .obj _ => true

/-- First-match property lookup in an object's field list
(JavaScript property access on a plain parsed object). -/
def jsLookup (k : List Char) : List (List Char × Json) → Option Json
  | [] => none
  | (k', v) :: rest => if k' = k then some v else jsLookup k rest

/-- Property access `j[k]`: `none` models JavaScript `undefined`
(arrays and primitives have none of the properties we access). -/
def getProp (j : Json) (k : List Char) : Option Json :=
  match j with
  | .obj fields => jsLookup k fields
  | _ => none

/-- JavaScript `a || b`: the left value when it is present and truthy,
otherwise the right. -/
def jsOr (a b : Option Json) : Option Json :=
  match a with
  | some v => if truthy v then some v else b
  | none => b

def nextLinkKeyUpper : List Char := "@odata.nextLink".toList
def nextLinkKeyLower : List Char := "@odata.nextlink".toList
def valueKey : List Char := "value".toList

/-- Transcribes `resp["@odata.nextLink"] || resp["@odata.nextlink"] || null`
(the trailing `|| null` collapses into `none`). -/
def nextLinkVal (j : Json) : Option Json :=
  jsOr (getProp j nextLinkKeyUpper) (jsOr (getProp j nextLinkKeyLower) none)

/-- Transcribes the page-shape test of the pagination loop:
`Array.isArray(resp?.value)` first, then `Array.isArray(resp)`;
anything else is not page-shaped. -/
def pageRecords : Json → Option (List Json)
  | .obj fields =>
      match jsLookup valueKey fields with
      | some (.arr xs) => some xs
      | _ => none
  | .arr xs => some xs
  | _ => none

/-- Error taxonomy of the transport and auth layers (spec section 7). -/
inductive ApiError where
  | httpError (status : Nat) (statusText body : List Char) : ApiError
  | unexpectedPayload (snippet : List Char) : ApiError
  | authenticationError (msg : List Char) : ApiError

/-- The `while (nextLink)` loop of `getCustomers` / `getVendors`
(fetchAllPages path), fuel-indexed; returns the accumulated records and
the number of requests the loop itself issued, `none` when the fuel runs
out (the source loop is unbounded).  A fetched page that is not
page-shaped breaks the loop, returning the records accumulated so far. -/
def followLinks (fetch : Json → Except ApiError Json) :
    Nat → List Json → Option Json → Option (Except ApiError (List Json) × Nat)
  | _, acc, none => some (.ok acc, 0)
  | 0, _, some _ => none
  | n + 1, acc, some link =>
      match fetch link with
      | .error e => some (.error e, 1)
      | .ok page =>
          match pageRecords page with
          | none => some (.ok acc, 1)
          | some recs =>
              match followLinks fetch n (acc ++ recs) (nextLinkVal page) with
              | none => none
              | some (res, k) => some (res, k + 1)

/-- Options accepted by `getCustomers` / `getVendors`; absent JavaScript
fields are `none`, and the boolean flags default to `false` exactly as
`if (options?.flag)` treats `undefined`. -/
structure ListOptions where
  filter : Option (List Char) := none
  select : Option (List (List Char)) := none
  top : Option Int := none
  orderby : Option (List Char) := none
  crossCompany : Bool := false
  fetchAllPages : Bool := false

/-- Percent-encoding table of `encodeURIComponent`: ASCII letters, digits
and `- _ . ! ~ * ' ( )` pass through unescaped. -/
def uriUnescaped (c : Char) : Bool :=
  (('A' ≤ c && c ≤ 'Z') || ('a' ≤ c && c ≤ 'z') || ('0' ≤ c && c ≤ '9')) ||
  (c == '-' || c == '_' || c == '.' || c == '!' ||
   c == '~' || c == '*' || c == '\'' || c == '(' || c == ')')

/-- Uppercase hexadecimal digit, as emitted by `encodeURIComponent`. -/
def hexDigit (n : Nat) : Char :=
  if n < 10 then Char.ofNat (48 + n) else Char.ofNat (55 + n)

/-- UTF-8 bytes of a code point. -/
def utf8Bytes (n : Nat) : List Nat :=
  if n < 0x80 then [n]
  else if n < 0x800 then
    [0xC0 + n / 0x40, 0x80 + n % 0x40]
  else if n < 0x10000 then
    [0xE0 + n / 0x1000, 0x80 + n / 0x40 % 0x40, 0x80 + n % 0x40]
  else
    [0xF0 + n / 0x40000, 0x80 + n / 0x1000 % 0x40, 0x80 + n / 0x40 % 0x40,
     0x80 + n % 0x40]

/-- Percent-escape of one byte. -/
def percentByte (b : Nat) : List Char :=
  ['%', hexDigit (b / 16), hexDigit (b % 16)]

/-- The ECMAScript builtin `encodeURIComponent` used by `buildODataQuery`. -/
def encodeURIComponent (s : List Char) : List Char :=
  (s.map fun c =>
    if uriUnescaped c then [c]
    else ((utf8Bytes c.toNat).map percentByte).flatten).flatten

/-- JavaScript `Array.join(sep)` on a list of strings: empty list gives
the empty string, otherwise the parts separated by `sep`. -/
def joinSep (sep : Char) : List (List Char) → List Char
  | [] => []
  | [p] => p
  | p :: rest => p ++ sep :: joinSep sep rest

/-- Comma-join of the `select` field list (`opts.select.join(",")`). -/
def commaJoin (fields : List (List Char)) : List Char :=
  joinSep ',' fields

/-- Options consumed by `buildODataQuery`; `extra` keeps the order of
`Object.entries`. -/
structure QueryOptions where
  filter : Option (List Char) := none
  select : Option (List (List Char)) := none
  top : Option Int := none
  orderby : Option (List Char) := none
  extra : List (List Char × List Char) := []

/-- Clause pushed for `filter` when present and truthy (non-empty). -/
def filterClause (o : QueryOptions) : List (List Char) :=
  match o.filter with
  | some f => if f.isEmpty then [] else ["$filter=".toList ++ encodeURIComponent f]
  | none => []

/-- Clause pushed for `select` when present and non-empty. -/
def selectClause (o : QueryOptions) : List (List Char) :=
  match o.select with
  | some fs => if fs.isEmpty then [] else
      ["$select=".toList ++ encodeURIComponent (commaJoin fs)]
  | none => []

/-- Decimal rendering of the `$top` integer (template-literal insertion). -/
def intToChars (n : Int) : List Char :=
  (toString n).toList

/-- Clause pushed for `top` when present, truthy and strictly positive. -/
def topClause (o : QueryOptions) : List (List Char) :=
  match o.top with
  | some n => if n != 0 && 0 < n then ["$top=".toList ++ intToChars n] else []
  | none => []

/-- Clause pushed for `orderby` when present and truthy. -/
def orderbyClause (o : QueryOptions) : List (List Char) :=
  match o.orderby with
  | some ob => if ob.isEmpty then [] else
      ["$orderby=".toList ++ encodeURIComponent ob]
  | none => []

/-- One clause per `extra` entry, keys verbatim, values encoded. -/
def extraClauses (o : QueryOptions) : List (List Char) :=
  o.extra.map fun kv => kv.1 ++ '=' :: encodeURIComponent kv.2

/-- Transcribes `buildODataQuery`: push the clauses in source order and
join with `&` (`parts.join("&")`, which is empty on no parts). -/
def buildODataQuery (o : QueryOptions) : List Char :=
  joinSep '&'
    (filterClause o ++ selectClause o ++ topClause o ++ orderbyClause o ++
     extraClauses o)

/-- Endpoint-with-query construction shared verbatim by `getCustomers`
(base `data/CustomersV3`) and `getVendors` (base `data/VendorsV3`). -/
def listEndpoint (base : List Char) (o : ListOptions) : List Char :=
  let extraParams : List (List Char × List Char) :=
    if o.crossCompany then [("cross-company".toList, "true".toList)] else []
  let query := buildODataQuery
    { filter := o.filter, select := o.select, top := o.top,
      orderby := o.orderby, extra := extraParams }
  if query.isEmpty then base else base ++ '?' :: query

def customersBase : List Char := "data/CustomersV3".toList
def vendorsBase : List Char := "data/VendorsV3".toList

/-- Body shared verbatim by `getCustomers` and `getVendors`: one request
when `fetchAllPages` is off; otherwise the first page feeds the
`followLinks` loop unless it is not page-shaped, in which case the raw
payload is returned unchanged.  The second component counts requests. -/
def listEntities (base : List Char) (fetch : Json → Except ApiError Json)
    (fuel : Nat) (o : ListOptions) : Option (Except ApiError Json × Nat) :=
  let endpointWithQuery := listEndpoint base o
  if !o.fetchAllPages then some (fetch (.str endpointWithQuery), 1)
  else
    match fetch (.str endpointWithQuery) with
    | .error e => some (.error e, 1)
    | .ok resp =>
        match pageRecords resp with
        | none => some (.ok resp, 1)
        | some recs =>
            match followLinks fetch fuel recs (nextLinkVal resp) with
            | none => none
            | some (.error e, k) => some (.error e, k + 1)
            | some (.ok results, k) =>
                some (.ok (.obj [(valueKey, .arr results)]), k + 1)

/-- Transcription of `getCustomers`. -/
def getCustomers (fetch : Json → Except ApiError Json) (fuel : Nat)
    (o : ListOptions) : Option (Except ApiError Json × Nat) :=
  listEntities customersBase fetch fuel o

/-- Transcription of `getVendors`. -/
def getVendors (fetch : Json → Except ApiError Json) (fuel : Nat)
    (o : ListOptions) : Option (Except ApiError Json × Nat) :=
  listEntities vendorsBase fetch fuel o

/-- A single-quote character, kept out of string literals on purpose. -/
def quoteChar : Char := '\''

/-- Transcribes `accountNum.replace(/'/g, "''")`: every single quote in
the identifier is doubled. -/
def escapeQuotes : List Char → List Char
  | [] => []
  | c :: rest =>
      if c = quoteChar then quoteChar :: quoteChar :: escapeQuotes rest
      else c :: escapeQuotes rest

/-- The equality filter built by `getCustomerByAccountNum`. -/
def customerFilter (accountNum : List Char) : List Char :=
  "CustomerAccount eq ".toList ++
    quoteChar :: (escapeQuotes accountNum ++ [quoteChar])

/-- The equality filter built by `getVendorByAccountNum`. -/
def vendorFilter (vendorAccount : List Char) : List Char :=
  "VendorAccountNumber eq ".toList ++
    quoteChar :: (escapeQuotes vendorAccount ++ [quoteChar])

/-- Options accepted by the by-account lookups. -/
structure ByIdOptions where
  select : Option (List (List Char)) := none
  crossCompany : Bool := false

/-- Transcription of `getCustomerByAccountNum`: spread the caller's
options, then set the equality filter and `top: 1` before delegating to
`getCustomers` (so `orderby` and `fetchAllPages` stay absent). -/
def getCustomerByAccountNum (fetch : Json → Except ApiError Json)
    (fuel : Nat) (accountNum : List Char) (o : ByIdOptions) :
    Option (Except ApiError Json × Nat) :=
  getCustomers fetch fuel
    { filter := some (customerFilter accountNum), select := o.select,
      top := some 1, orderby := none, crossCompany := o.crossCompany,
      fetchAllPages := false }

/-- Transcription of `getVendorByAccountNum`. -/
def getVendorByAccountNum (fetch : Json → Except ApiError Json)
    (fuel : Nat) (vendorAccount : List Char) (o : ByIdOptions) :
    Option (Except ApiError Json × Nat) :=
  getVendors fetch fuel
    { filter := some (vendorFilter vendorAccount), select := o.select,
      top := some 1, orderby := none, crossCompany := o.crossCompany,
      fetchAllPages := false }

/-- Transcribes `normalizeSingleRecord` from the tool layer: falsy input
is `null`; a bare array yields its first element or `null`; an object
whose `value` is an array yields that array's first element or `null`;
any other non-empty object is returned whole; everything else is `null`.
`none` stands for the JavaScript `null` result. -/
def normalizeSingleRecord (resp : Json) : Option Json :=
  if truthy resp then
    match resp with
    | .arr xs => xs.head?
    | .obj fields =>
        match jsLookup valueKey fields with
        | some (.arr xs) => xs.head?
        | _ => if fields.isEmpty then none else some (.obj fields)
    | _ => none
  else none

/-- Result shape of the combined-search tool (spec's `EntityMatch`). -/
inductive EntityMatch where
  | both (customerRecord vendorRecord : Json) : EntityMatch
  | customer (record : Json) : EntityMatch
  | vendor (record : Json) : EntityMatch
  | notFound : EntityMatch

/-- Transcribes `custResp.status === "fulfilled" ?
normalizeSingleRecord(custResp.value) : null` applied to one settled
lookup: a rejected promise becomes `null`, as does a fulfilled lookup
that normalizes to no record. -/
def settleLookup (r : Except ApiError Json) : Json :=
  match r with
  | .error _ => .null
  | .ok v =>
      match normalizeSingleRecord v with
      | some rec => rec
      | none => .null

/-- Transcribes the merge of the `fetch-entity-by-id` tool after
`Promise.allSettled`: `if (cust && vend) ... else if (cust) ... else if
(vend) ... else notFound`. -/
def resolveParallel (custResp vendResp : Except ApiError Json) :
    EntityMatch :=
  let cust := settleLookup custResp
  let vend := settleLookup vendResp
  if truthy cust && truthy vend then .both cust vend
  else if truthy cust then .customer cust
  else if truthy vend then .vendor vend
  else .notFound

/-- Identity-provider response body: `accessToken` may be absent or
empty, `expiresOn` (a `Date`) is modelled by its epoch-milliseconds. -/
structure TokenResp where
  accessToken : Option (List Char)
  expiresOn : Option Int

/-- The mutable credential fields of the `Dynamics365FO` instance. -/
structure AuthState where
  accessToken : Option (List Char)
  tokenExpiration : Option Int
deriving DecidableEq

/-- Three minutes in milliseconds (`3 * 60 * 1000`). -/
def renewalSkewMs : Int := 3 * 60 * 1000

/-- Transcribes `this.tokenExpiration && Date.now() < this.tokenExpiration`:
a `null` or `0` stored value is falsy. -/
def cacheValid (now : Int) : Option Int → Bool
  | none => false
  | some e => decide (e ≠ 0 ∧ now < e)

/-- Outcome of one `authenticate()` call: the returned-or-thrown value,
the instance state afterwards, and whether an identity-provider exchange
(`acquireTokenByClientCredential`) was performed. -/
structure AuthResult where
  result : Except ApiError (Option (List Char))
  state : AuthState
  exchanged : Bool

/-- Transcribes `authenticate()` with the identity-provider exchange as
an oracle (`.error` models a rejected MSAL promise, `.ok none` a `null`
response body).  The cached token is returned with no exchange while the
stored expiration is truthy and in the future; otherwise an exchange
runs, stores the token on success, stores `expiresOn - 3 min` only when
`expiresOn` is present, and rethrows every failure as an
authentication error leaving the fields untouched. -/
def authenticate (idp : Except (List Char) (Option TokenResp)) (now : Int)
    (s : AuthState) : AuthResult :=
  if cacheValid now s.tokenExpiration then
    ⟨.ok s.accessToken, s, false⟩
  else
    match idp with
    | .error msg => ⟨.error (.authenticationError msg), s, true⟩
    | .ok none =>
        ⟨.error (.authenticationError "response is null or invalid".toList),
         s, true⟩
    | .ok (some r) =>
        match r.accessToken with
        | some tok =>
            if tok.isEmpty then
              ⟨.error
                 (.authenticationError "response is null or invalid".toList),
               s, true⟩
            else
              ⟨.ok (some tok),
               ⟨some tok,
                match r.expiresOn with
                | some t => some (t - renewalSkewMs)
                | none => s.tokenExpiration⟩,
               true⟩
        | none =>
            ⟨.error
               (.authenticationError "response is null or invalid".toList),
             s, true⟩

/-- Substring test used for `text.includes("<html")`. -/
def containsSub (pat : List Char) : List Char → Bool
  | [] => pat.isEmpty
  | c :: rest => pat.isPrefixOf (c :: rest) || containsSub pat rest

/-- Transcribes the HTML detector of `makeApiRequest` (part_001):
`text.startsWith("<!DOCTYPE html>") || text.includes("<html")`. -/
def isHtmlPayload (text : List Char) : Bool :=
  "<!DOCTYPE html>".toList.isPrefixOf text || containsSub "<html".toList text

/-- Transcribes the response handling of `makeApiRequest` (part_001)
after `fetch` resolves, with `JSON.parse` as an oracle: non-success
status throws an HTTP error carrying the body; a missing or empty body
returns `null`; an HTML body throws before any parse is attempted; a
parse failure throws the same unexpected-payload error. -/
def processResponse (parse : List Char → Option Json) (okStatus : Bool)
    (status : Nat) (statusText : List Char) (text : Option (List Char)) :
    Except ApiError (Option Json) :=
  if !okStatus then
    .error (.httpError status statusText (text.getD []))
  else
    match text with
    | none => .ok none
    | some t =>
        if t.isEmpty then .ok none
        else if isHtmlPayload t then
          .error (.unexpectedPayload (t.take 100))
        else
          match parse t with
          | some j => .ok (some j)
          | none => .error (.unexpectedPayload (t.take 100))

/-- Transcribes the trailing-slash strip of `makeApiRequest` (main.ts):
`d365Url.endsWith("/") ? d365Url.slice(0, -1) : d365Url`. -/
def stripOneTrailingSlash (s : List Char) : List Char :=
  if s.getLast? = some '/' then s.dropLast else s

/-- Transcribes `endpoint.replace(/^\//, "")`: at most one leading slash
is removed. -/
def stripOneLeadingSlash (s : List Char) : List Char :=
  match s with
  | c :: rest => if c = '/' then rest else c :: rest
  | [] => []

/-- Transcribes the absolute-URL test `endpoint.match(/^https?:\/\//i)`. -/
def isAbsoluteHttpUrl (s : List Char) : Bool :=
  "http://".toList.isPrefixOf (s.map Char.toLower) ||
  "https://".toList.isPrefixOf (s.map Char.toLower)

/-- Transcribes the URL resolution of `makeApiRequest` (main.ts): an
absolute endpoint passes through, otherwise one trailing slash of the
base and one leading slash of the endpoint are dropped and the two are
joined with a single slash. -/
def resolveRequestUrl (base endpoint : List Char) : List Char :=
  if isAbsoluteHttpUrl endpoint then endpoint
  else stripOneTrailingSlash base ++ '/' :: stripOneLeadingSlash endpoint

/-- Modelled from the claim's words, for contrast with
`resolveRequestUrl`: a join that puts exactly one slash between base and
path regardless of how many trailing or leading slashes either side
carries. -/
def claimedSingleSlashJoin (base endpoint : List Char) : List Char :=
  if isAbsoluteHttpUrl endpoint then endpoint
  else
    (base.reverse.dropWhile (fun c => c == '/')).reverse ++
      '/' :: endpoint.dropWhile (fun c => c == '/')

/-- A finite, acyclic continuation chain hanging off a link value: each
link fetches successfully to a page-shaped payload whose records and
further link continue the chain.  `Chain fetch lnk pages` says that
starting from `lnk` the backend serves exactly the record lists
`pages`, in order, and then stops. -/
inductive Chain (fetch : Json → Except ApiError Json) :
    Option Json → List (List Json) → Prop where
  | nil : Chain fetch none []
  | cons {link page : Json} {recs : List Json} {lnk : Option Json}
      {rest : List (List Json)}
      (hfetch : fetch link = .ok page)
      (hrecs : pageRecords page = some recs)
      (hnext : nextLinkVal page = lnk)
      (hchain : Chain fetch lnk rest) :
      Chain fetch (some link) (recs :: rest)

/-! Sample data used by the witness theorems: a mock backend serving
three customer pages of two records each, linked by continuation URLs,
mirroring the spec's pagination test scenario. -/

def sampleRec (n : Int) : Json := .obj [("id".toList, .num n)]

def samplePage2Url : List Char := "https://env.example/page2".toList
def samplePage3Url : List Char := "https://env.example/page3".toList

def samplePage1 : Json :=
  .obj [(valueKey, .arr [sampleRec 1, sampleRec 2]),
        (nextLinkKeyUpper, .str samplePage2Url)]

def samplePage2 : Json :=
  .obj [(valueKey, .arr [sampleRec 3, sampleRec 4]),
        (nextLinkKeyLower, .str samplePage3Url)]

def samplePage3 : Json :=
  .obj [(valueKey, .arr [sampleRec 5, sampleRec 6])]

def sampleFetch : Json → Except ApiError Json := fun j =>
  match j with
  | .str s =>
      if s = customersBase then .ok samplePage1
      else if s = samplePage2Url then .ok samplePage2
      else if s = samplePage3Url then .ok samplePage3
      else .error (.httpError 404 "Not Found".toList [])
  | _ => .error (.httpError 404 "Not Found".toList [])

/-- Backend used by the single-lookup witnesses: it answers the exact
customer-by-account endpoint for account `C1` with a one-record
envelope, the matching vendor endpoint with an empty envelope, and
fails every other request. -/
def sampleByIdFetch : Json → Except ApiError Json := fun j =>
  match j with
  | .str s =>
      if s = listEndpoint customersBase
          { filter := some (customerFilter "C1".toList), top := some 1 } then
        .ok (.obj [(valueKey, .arr [sampleRec 7])])
      else if s = listEndpoint vendorsBase
          { filter := some (vendorFilter "C1".toList), top := some 1 } then
        .ok (.obj [(valueKey, .arr [])])
      else .error (.httpError 404 "Not Found".toList [])
  | _ => .error (.httpError 404 "Not Found".toList [])

/-! Theorems. -/

/-- Any fuel at least the chain length lets `followLinks` consume the
whole continuation chain, appending every page's records in order and
issuing exactly one request per page. -/
theorem followLinks_of_chain {fetch : Json → Except ApiError Json}
    {lnk : Option Json} {pages : List (List Json)}
    (h : Chain fetch lnk pages) :
    ∀ fuel : Nat, pages.length ≤ fuel → ∀ acc : List Json,
      followLinks fetch fuel acc lnk =
        some (.ok (acc ++ pages.flatten), pages.length) := by
  induction h with
  | nil =>
      intro fuel _ acc
      simp [followLinks]
  | cons hfetch hrecs hnext hchain ih =>
      intro fuel hfuel acc
      cases fuel with
      | zero => simp at hfuel
      | succ f =>
          simp only [followLinks, hfetch, hrecs, hnext]
          rw [ih f (by simpa using hfuel)]
          simp [List.append_assoc]

/-- The shared `fetchAllPages` body of `getCustomers` / `getVendors`
collects the first page's records and every chained page's records, in
arrival order, with one request per page. -/
theorem listEntities_all_pages {base : List Char}
    {fetch : Json → Except ApiError Json} {fuel : Nat} {o : ListOptions}
    {first : Json} {r0 : List Json} {lnk : Option Json}
    {rest : List (List Json)}
    (hall : o.fetchAllPages = true)
    (hfirst : fetch (.str (listEndpoint base o)) = .ok first)
    (hrecs : pageRecords first = some r0)
    (hlnk : nextLinkVal first = lnk)
    (hchain : Chain fetch lnk rest)
    (hfuel : rest.length ≤ fuel) :
    listEntities base fetch fuel o =
      some (.ok (.obj [(valueKey, .arr (r0 ++ rest.flatten))]),
            rest.length + 1) := by
  unfold listEntities
  simp only [hall, hfirst, hrecs, hlnk, Bool.not_true, Bool.false_eq_true,
    if_false]
  rw [followLinks_of_chain hchain fuel hfuel]

/-- C1: a `fetchAllPages` list call (`getCustomers` or `getVendors`)
whose first response is page-shaped and whose continuation chain is
finite and acyclic issues exactly one request per page, follows the
link found under either case-variant key (as looked up by
`nextLinkVal`) until absent, and returns all pages' records
concatenated in page-arrival then intra-page order. -/
theorem c1_fetch_all_pages_collects_every_page :
    (∀ (fetch : Json → Except ApiError Json) (fuel : Nat) (o : ListOptions)
       (first : Json) (r0 : List Json) (lnk : Option Json)
       (rest : List (List Json)),
       o.fetchAllPages = true →
       fetch (.str (listEndpoint customersBase o)) = .ok first →
       pageRecords first = some r0 →
       nextLinkVal first = lnk →
       Chain fetch lnk rest →
       rest.length ≤ fuel →
       getCustomers fetch fuel o =
         some (.ok (.obj [(valueKey, .arr (r0 ++ rest.flatten))]),
               rest.length + 1)) ∧
    (∀ (fetch : Json → Except ApiError Json) (fuel : Nat) (o : ListOptions)
       (first : Json) (r0 : List Json) (lnk : Option Json)
       (rest : List (List Json)),
       o.fetchAllPages = true →
       fetch (.str (listEndpoint vendorsBase o)) = .ok first →
       pageRecords first = some r0 →
       nextLinkVal first = lnk →
       Chain fetch lnk rest →
       rest.length ≤ fuel →
       getVendors fetch fuel o =
         some (.ok (.obj [(valueKey, .arr (r0 ++ rest.flatten))]),
               rest.length + 1)) := by
  constructor
  · intro fetch fuel o first r0 lnk rest hall hfirst hrecs hlnk hchain hfuel
    exact listEntities_all_pages hall hfirst hrecs hlnk hchain hfuel
  · intro fetch fuel o first r0 lnk rest hall hfirst hrecs hlnk hchain hfuel
    exact listEntities_all_pages hall hfirst hrecs hlnk hchain hfuel

/-- Witness for C1: the three-page mock backend yields the six records
in order with exactly three requests. -/
theorem c1_fetch_all_pages_witness :
    ({ fetchAllPages := true : ListOptions }.fetchAllPages = true) ∧
    sampleFetch (.str (listEndpoint customersBase { fetchAllPages := true })) =
      .ok samplePage1 ∧
    pageRecords samplePage1 = some [sampleRec 1, sampleRec 2] ∧
    nextLinkVal samplePage1 = some (.str samplePage2Url) ∧
    Chain sampleFetch (some (.str samplePage2Url))
      [[sampleRec 3, sampleRec 4], [sampleRec 5, sampleRec 6]] ∧
    ([[sampleRec 3, sampleRec 4], [sampleRec 5, sampleRec 6]] :
       List (List Json)).length ≤ 10 ∧
    getCustomers sampleFetch 10 { fetchAllPages := true } =
      some (.ok (.obj [(valueKey,
              .arr [sampleRec 1, sampleRec 2, sampleRec 3, sampleRec 4,
                    sampleRec 5, sampleRec 6])]), 3) :=
  ⟨rfl, rfl, rfl, rfl,
   Chain.cons rfl rfl rfl (Chain.cons rfl rfl rfl Chain.nil),
   by decide,
   c1_fetch_all_pages_collects_every_page.1 sampleFetch 10
     { fetchAllPages := true } samplePage1 [sampleRec 1, sampleRec 2]
     (some (.str samplePage2Url))
     [[sampleRec 3, sampleRec 4], [sampleRec 5, sampleRec 6]]
     rfl rfl rfl rfl
     (Chain.cons rfl rfl rfl (Chain.cons rfl rfl rfl Chain.nil))
     (by decide)⟩

/-- While the stored expiration is truthy and in the future, a call is a
pure cache hit: cached token returned, state unchanged, no exchange. -/
theorem authenticate_hit {idp : Except (List Char) (Option TokenResp)}
    {now : Int} {s : AuthState}
    (h : cacheValid now s.tokenExpiration = true) :
    authenticate idp now s = ⟨.ok s.accessToken, s, false⟩ := by
  simp [authenticate, h]

/-- Outside the cache window every call performs an exchange. -/
theorem authenticate_exchanges {idp : Except (List Char) (Option TokenResp)}
    {now : Int} {s : AuthState}
    (h : cacheValid now s.tokenExpiration = false) :
    (authenticate idp now s).exchanged = true := by
  unfold authenticate
  rw [h]
  rcases idp with msg | _ | r
  · rfl
  · rfl
  · rcases r with ⟨tok | tok, eo⟩
    · rfl
    · by_cases he : tok.isEmpty <;> simp [he]

/-- C2: the cached token is reused with no identity-provider exchange
exactly while the current time is strictly before the stored expiry
minus the 3-minute renewal skew; outside that window (or with no stored
expiration) a fresh exchange is performed, so two calls inside the
window after an acquisition perform one exchange in total and a later
call outside it performs a second. -/
theorem c2_token_cache_window :
    (∀ (idp : Except (List Char) (Option TokenResp)) (now expiresAt : Int)
       (s : AuthState), 0 ≤ now →
       s.tokenExpiration = some (expiresAt - renewalSkewMs) →
       ((authenticate idp now s).exchanged = false ↔
         now < expiresAt - renewalSkewMs)) ∧
    (∀ (idp : Except (List Char) (Option TokenResp)) (now : Int)
       (s : AuthState), s.tokenExpiration = none →
       (authenticate idp now s).exchanged = true) ∧
    (∀ (idp : Except (List Char) (Option TokenResp)) (now : Int)
       (s : AuthState), (authenticate idp now s).exchanged = false →
       authenticate idp now s = ⟨.ok s.accessToken, s, false⟩) ∧
    (∀ (tok : List Char) (t0 t1 t2 : Int)
       (idp2 idp3 : Except (List Char) (Option TokenResp)),
       0 ≤ t0 → tok ≠ [] → 0 ≤ t1 → t1 < t0 + 420000 → t0 + 420000 ≤ t2 →
       (authenticate (.ok (some ⟨some tok, some (t0 + 600000)⟩)) t0
           ⟨none, none⟩).exchanged = true ∧
       (authenticate (.ok (some ⟨some tok, some (t0 + 600000)⟩)) t0
           ⟨none, none⟩).state = ⟨some tok, some (t0 + 420000)⟩ ∧
       (authenticate idp2 t1 ⟨some tok, some (t0 + 420000)⟩).exchanged =
         false ∧
       authenticate idp2 t1 ⟨some tok, some (t0 + 420000)⟩ =
         ⟨.ok (some tok), ⟨some tok, some (t0 + 420000)⟩, false⟩ ∧
       (authenticate idp3 t2 ⟨some tok, some (t0 + 420000)⟩).exchanged =
         true) := by
  have hchar : ∀ (idp : Except (List Char) (Option TokenResp)) (now : Int)
      (s : AuthState), (authenticate idp now s).exchanged = false ↔
      cacheValid now s.tokenExpiration = true := by
    intro idp now s
    constructor
    · intro h
      by_contra hv
      rw [authenticate_exchanges (Bool.eq_false_iff.mpr hv)] at h
      exact absurd h (by simp)
    · intro h
      rw [authenticate_hit h]
  refine ⟨?_, ?_, ?_, ?_⟩
  · intro idp now expiresAt s hnow hexp
    rw [hchar, hexp]
    simp only [cacheValid, decide_eq_true_eq]
    constructor
    · intro h
      exact h.2
    · intro h
      exact ⟨by omega, h⟩
  · intro idp now s hnone
    apply authenticate_exchanges
    rw [hnone]
    rfl
  · intro idp now s h
    exact authenticate_hit ((hchar idp now s).mp h)
  · intro tok t0 t1 t2 idp2 idp3 ht0 htok ht1 ht1w ht2
    have hmiss : cacheValid t0 (none : Option Int) = false := rfl
    have hempty : tok.isEmpty = false := by
      cases tok
      · exact absurd rfl htok
      · rfl
    have hfirst : authenticate (.ok (some ⟨some tok, some (t0 + 600000)⟩))
        t0 ⟨none, none⟩ =
        ⟨.ok (some tok), ⟨some tok, some (t0 + 420000)⟩, true⟩ := by
      unfold authenticate
      simp only [hmiss, hempty, Bool.false_eq_true, if_false, renewalSkewMs]
      norm_num
      omega
    have hhit : cacheValid t1 (some (t0 + 420000)) = true := by
      simp only [cacheValid, decide_eq_true_eq]
      omega
    have hmiss2 : cacheValid t2 (some (t0 + 420000)) = false := by
      simp only [cacheValid, decide_eq_false_iff_not]
      omega
    refine ⟨by rw [hfirst], by rw [hfirst], ?_, ?_, ?_⟩
    · rw [authenticate_hit hhit]
    · rw [authenticate_hit hhit]
    · exact authenticate_exchanges hmiss2

/-- Witness for C2: with an expiry ten minutes out, a first call
exchanges and caches, a second call inside the window reuses the token
with no exchange, and a call past the skewed expiry exchanges again. -/
theorem c2_token_cache_witness :
    (0 : Int) ≤ 0 ∧ "T".toList ≠ [] ∧ (0 : Int) ≤ 100000 ∧
    (100000 : Int) < 0 + 420000 ∧ (0 : Int) + 420000 ≤ 420000 ∧
    ((authenticate (.ok (some ⟨some "T".toList, some (0 + 600000)⟩)) 0
        ⟨none, none⟩).exchanged = true ∧
     (authenticate (.ok (some ⟨some "T".toList, some (0 + 600000)⟩)) 0
        ⟨none, none⟩).state = ⟨some "T".toList, some (0 + 420000)⟩ ∧
     (authenticate (.error "down".toList) 100000
        ⟨some "T".toList, some (0 + 420000)⟩).exchanged = false ∧
     authenticate (.error "down".toList) 100000
        ⟨some "T".toList, some (0 + 420000)⟩ =
       ⟨.ok (some "T".toList), ⟨some "T".toList, some (0 + 420000)⟩,
        false⟩ ∧
     (authenticate (.error "down".toList) 420000
        ⟨some "T".toList, some (0 + 420000)⟩).exchanged = true) :=
  ⟨by decide, by decide, by decide, by decide, by decide,
   c2_token_cache_window.2.2.2 "T".toList 0 100000 420000
     (.error "down".toList) (.error "down".toList)
     (by decide) (by decide) (by decide) (by decide) (by decide)⟩

/-- C3: when the backend answers the generated by-account request with a
(successful) OData envelope, `getCustomerByAccountNum` and
`getVendorByAccountNum` return it without raising — in particular an
empty result set is not an error — and the single-record view every
caller applies (`normalizeSingleRecord`) yields the first matched
record, or nothing when the result set is empty. -/
theorem c3_by_account_absence_is_a_value :
    (∀ (fetch : Json → Except ApiError Json) (fuel : Nat)
       (accountNum : List Char) (o : ByIdOptions) (recs : List Json),
       fetch (.str (listEndpoint customersBase
           { filter := some (customerFilter accountNum), select := o.select,
             top := some 1, orderby := none, crossCompany := o.crossCompany,
             fetchAllPages := false })) = .ok (.obj [(valueKey, .arr recs)]) →
       getCustomerByAccountNum fetch fuel accountNum o =
         some (.ok (.obj [(valueKey, .arr recs)]), 1)) ∧
    (∀ (fetch : Json → Except ApiError Json) (fuel : Nat)
       (vendorAccount : List Char) (o : ByIdOptions) (recs : List Json),
       fetch (.str (listEndpoint vendorsBase
           { filter := some (vendorFilter vendorAccount), select := o.select,
             top := some 1, orderby := none, crossCompany := o.crossCompany,
             fetchAllPages := false })) = .ok (.obj [(valueKey, .arr recs)]) →
       getVendorByAccountNum fetch fuel vendorAccount o =
         some (.ok (.obj [(valueKey, .arr recs)]), 1)) ∧
    (∀ recs : List Json,
       normalizeSingleRecord (.obj [(valueKey, .arr recs)]) = recs.head?) := by
  refine ⟨?_, ?_, ?_⟩
  · intro fetch fuel accountNum o recs h
    simp [getCustomerByAccountNum, getCustomers, listEntities, h]
  · intro fetch fuel vendorAccount o recs h
    simp [getVendorByAccountNum, getVendors, listEntities, h]
  · intro recs
    simp [normalizeSingleRecord, truthy, jsLookup]

/-- Witness for C3: one backend holds account `C1` as a customer (one
record) and not as a vendor (empty result set); the customer lookup
yields the record, the vendor lookup returns successfully and
normalizes to nothing. -/
theorem c3_by_account_witness :
    sampleByIdFetch (.str (listEndpoint customersBase
        { filter := some (customerFilter "C1".toList), select := none,
          top := some 1, orderby := none, crossCompany := false,
          fetchAllPages := false })) =
      .ok (.obj [(valueKey, .arr [sampleRec 7])]) ∧
    sampleByIdFetch (.str (listEndpoint vendorsBase
        { filter := some (vendorFilter "C1".toList), select := none,
          top := some 1, orderby := none, crossCompany := false,
          fetchAllPages := false })) =
      .ok (.obj [(valueKey, .arr [])]) ∧
    getCustomerByAccountNum sampleByIdFetch 0 "C1".toList {} =
      some (.ok (.obj [(valueKey, .arr [sampleRec 7])]), 1) ∧
    getVendorByAccountNum sampleByIdFetch 0 "C1".toList {} =
      some (.ok (.obj [(valueKey, .arr [])]), 1) ∧
    normalizeSingleRecord (.obj [(valueKey, .arr [sampleRec 7])]) =
      some (sampleRec 7) ∧
    normalizeSingleRecord (.obj [(valueKey, .arr [])]) = none :=
  ⟨rfl, rfl,
   c3_by_account_absence_is_a_value.1 sampleByIdFetch 0 "C1".toList {}
     [sampleRec 7] rfl,
   c3_by_account_absence_is_a_value.2.1 sampleByIdFetch 0 "C1".toList {}
     [] rfl,
   c3_by_account_absence_is_a_value.2.2 [sampleRec 7],
   c3_by_account_absence_is_a_value.2.2 []⟩

/-- C4: the by-account lookups are sugar for the corresponding list call
with `top = 1` and an equality filter on the entity's account field,
with every embedded single quote of the identifier doubled before
interpolation; in particular `O'Brien` yields the filter
`CustomerAccount eq 'O''Brien'`. -/
theorem c4_by_account_escapes_quotes :
    (∀ (fetch : Json → Except ApiError Json) (fuel : Nat)
       (accountNum : List Char) (o : ByIdOptions),
       getCustomerByAccountNum fetch fuel accountNum o =
         getCustomers fetch fuel
           { filter := some (customerFilter accountNum), select := o.select,
             top := some 1, orderby := none, crossCompany := o.crossCompany,
             fetchAllPages := false }) ∧
    (∀ (fetch : Json → Except ApiError Json) (fuel : Nat)
       (vendorAccount : List Char) (o : ByIdOptions),
       getVendorByAccountNum fetch fuel vendorAccount o =
         getVendors fetch fuel
           { filter := some (vendorFilter vendorAccount), select := o.select,
             top := some 1, orderby := none, crossCompany := o.crossCompany,
             fetchAllPages := false }) ∧
    (∀ accountNum : List Char,
       customerFilter accountNum =
         "CustomerAccount eq ".toList ++
           quoteChar :: (escapeQuotes accountNum ++ [quoteChar])) ∧
    (∀ rest : List Char,
       escapeQuotes (quoteChar :: rest) =
         quoteChar :: quoteChar :: escapeQuotes rest) ∧
    (∀ (c : Char) (rest : List Char), c ≠ quoteChar →
       escapeQuotes (c :: rest) = c :: escapeQuotes rest) ∧
    (∀ accountNum : List Char,
       (escapeQuotes accountNum).count quoteChar =
         2 * accountNum.count quoteChar) ∧
    customerFilter ("O".toList ++ quoteChar :: "Brien".toList) =
      "CustomerAccount eq ".toList ++
        quoteChar :: 'O' :: quoteChar :: quoteChar :: "Brien".toList ++
        [quoteChar] := by
  refine ⟨fun _ _ _ _ => rfl, fun _ _ _ _ => rfl, fun _ => rfl, ?_, ?_, ?_,
    by decide⟩
  · intro rest
    simp [escapeQuotes]
  · intro c rest hc
    simp [escapeQuotes, hc]
  · intro accountNum
    induction accountNum with
    | nil => simp [escapeQuotes]
    | cons c rest ih =>
        by_cases hc : c = quoteChar
        · subst hc
          simp [escapeQuotes, List.count_cons, ih]
          ring
        · have hb : (c == quoteChar) = false := by
            simpa using hc
          simp [escapeQuotes, hc, List.count_cons, hb, ih]

/-- Witness for C4: the `O'Brien` identifier at concrete inputs. -/
theorem c4_by_account_escapes_witness :
    'O' ≠ quoteChar ∧
    escapeQuotes ('O' :: quoteChar :: "Brien".toList) =
      'O' :: quoteChar :: quoteChar :: escapeQuotes "Brien".toList ∧
    getCustomerByAccountNum sampleByIdFetch 0 "C1".toList {} =
      getCustomers sampleByIdFetch 0
        { filter := some (customerFilter "C1".toList), select := none,
          top := some 1, orderby := none, crossCompany := false,
          fetchAllPages := false } :=
  ⟨by decide,
   by
     rw [c4_by_account_escapes_quotes.2.2.2.2.1 'O'
           (quoteChar :: "Brien".toList) (by decide),
         c4_by_account_escapes_quotes.2.2.2.1 "Brien".toList],
   c4_by_account_escapes_quotes.1 sampleByIdFetch 0 "C1".toList {}⟩

/-- C5: the query builder is deterministic, emits its clauses in the
fixed order filter, select, top, orderby, then the extra entries,
joined by `&` with nothing prepended (a present filter makes the result
start with `$`), returns the empty string when no clause applies, and
ignores a zero or negative `top`. -/
theorem c5_build_odata_query :
    (∀ a b : QueryOptions, a = b →
       buildODataQuery a = buildODataQuery b) ∧
    buildODataQuery {} = [] ∧
    (∀ (o : QueryOptions) (n : Int), n ≤ 0 →
       buildODataQuery { o with top := some n } =
         buildODataQuery { o with top := none }) ∧
    (∀ o : QueryOptions,
       buildODataQuery o =
         joinSep '&' (filterClause o ++ selectClause o ++ topClause o ++
           orderbyClause o ++ extraClauses o)) ∧
    (∀ (o : QueryOptions) (f : List Char), o.filter = some f → f ≠ [] →
       (buildODataQuery o).head? = some '$') := by
  refine ⟨?_, rfl, ?_, fun _ => rfl, ?_⟩
  · intro a b h
    rw [h]
  · intro o n hn
    have h1 : ¬ (0 : Int) < n := by omega
    simp [buildODataQuery, filterClause, selectClause, topClause,
      orderbyClause, extraClauses, h1]
  · intro o f hf hne
    have hemp : f.isEmpty = false := by
      cases f
      · exact absurd rfl hne
      · rfl
    unfold buildODataQuery
    have hfc : filterClause o =
        ["$filter=".toList ++ encodeURIComponent f] := by
      simp [filterClause, hf, hemp]
    rw [hfc]
    have key : ∀ rest : List (List Char),
        (joinSep '&'
          (("$filter=".toList ++ encodeURIComponent f) :: rest)).head? =
          some '$' := by
      intro rest
      cases rest with
      | nil => rfl
      | cons q qs => rfl
    exact key _

/-- Witness for C5: the determinism, zero-top, negative-top and
leading-dollar parts at concrete inputs. -/
theorem c5_build_odata_query_witness :
    (({ filter := some "a b".toList, top := some 3 } : QueryOptions) =
       { filter := some "a b".toList, top := some 3 }) ∧
    buildODataQuery { filter := some "a b".toList, top := some 3 } =
      buildODataQuery { filter := some "a b".toList, top := some 3 } ∧
    (-5 : Int) ≤ 0 ∧
    buildODataQuery { top := some (-5) } =
      buildODataQuery ({ top := none } : QueryOptions) ∧
    (0 : Int) ≤ 0 ∧
    buildODataQuery { top := some 0 } =
      buildODataQuery ({ top := none } : QueryOptions) ∧
    ({ filter := some "a b".toList, top := some 3 } :
        QueryOptions).filter = some "a b".toList ∧
    "a b".toList ≠ [] ∧
    (buildODataQuery
        { filter := some "a b".toList, top := some 3 }).head? =
      some '$' :=
  ⟨rfl,
   c5_build_odata_query.1 _ _ rfl,
   by decide,
   c5_build_odata_query.2.2.1 {} (-5) (by decide),
   by decide,
   c5_build_odata_query.2.2.1 {} 0 (by decide),
   rfl,
   by decide,
   c5_build_odata_query.2.2.2.2 { filter := some "a b".toList, top := some 3 }
     "a b".toList rfl (by decide)⟩

/-- C6: the combined-search merge joins on both settled lookups; a
lookup that rejected is indistinguishable from one that found nothing
and leaves the other branch in force, both records give `both`, a
single record gives that kind's tagged variant, and none gives
`notFound`. -/
theorem c6_parallel_resolution_merge :
    (∀ (e : ApiError) (vendResp : Except ApiError Json),
       resolveParallel (.error e) vendResp =
         resolveParallel (.ok .null) vendResp) ∧
    (∀ (e : ApiError) (custResp : Except ApiError Json),
       resolveParallel custResp (.error e) =
         resolveParallel custResp (.ok .null)) ∧
    (∀ custResp vendResp : Except ApiError Json,
       truthy (settleLookup custResp) = true →
       truthy (settleLookup vendResp) = true →
       resolveParallel custResp vendResp =
         .both (settleLookup custResp) (settleLookup vendResp)) ∧
    (∀ custResp vendResp : Except ApiError Json,
       truthy (settleLookup custResp) = true →
       truthy (settleLookup vendResp) = false →
       resolveParallel custResp vendResp =
         .customer (settleLookup custResp)) ∧
    (∀ custResp vendResp : Except ApiError Json,
       truthy (settleLookup custResp) = false →
       truthy (settleLookup vendResp) = true →
       resolveParallel custResp vendResp =
         .vendor (settleLookup vendResp)) ∧
    (∀ custResp vendResp : Except ApiError Json,
       truthy (settleLookup custResp) = false →
       truthy (settleLookup vendResp) = false →
       resolveParallel custResp vendResp = .notFound) ∧
    (∀ e : ApiError, settleLookup (.error e) = .null) := by
  refine ⟨fun _ _ => rfl, ?_, ?_, ?_, ?_, ?_, fun _ => rfl⟩
  · intro e custResp
    simp only [resolveParallel]
    rfl
  · intro custResp vendResp hc hv
    simp [resolveParallel, hc, hv]
  · intro custResp vendResp hc hv
    simp [resolveParallel, hc, hv]
  · intro custResp vendResp hc hv
    simp [resolveParallel, hc, hv]
  · intro custResp vendResp hc hv
    simp [resolveParallel, hc, hv]

/-- Witness for C6: a failed customer lookup beside a vendor hit yields
the vendor variant, and two hits yield both. -/
theorem c6_parallel_resolution_witness :
    truthy (settleLookup (.error (.httpError 500 [] []) :
        Except ApiError Json)) = false ∧
    truthy (settleLookup (.ok (.obj [(valueKey, .arr [sampleRec 2])]) :
        Except ApiError Json)) = true ∧
    resolveParallel (.error (.httpError 500 [] []))
        (.ok (.obj [(valueKey, .arr [sampleRec 2])])) =
      .vendor (settleLookup (.ok (.obj [(valueKey, .arr [sampleRec 2])]))) ∧
    truthy (settleLookup (.ok (.obj [(valueKey, .arr [sampleRec 1])]) :
        Except ApiError Json)) = true ∧
    resolveParallel (.ok (.obj [(valueKey, .arr [sampleRec 1])]))
        (.ok (.obj [(valueKey, .arr [sampleRec 2])])) =
      .both (settleLookup (.ok (.obj [(valueKey, .arr [sampleRec 1])])))
        (settleLookup (.ok (.obj [(valueKey, .arr [sampleRec 2])]))) :=
  ⟨rfl, rfl,
   c6_parallel_resolution_merge.2.2.2.2.1 (.error (.httpError 500 [] []))
     (.ok (.obj [(valueKey, .arr [sampleRec 2])])) rfl rfl,
   rfl,
   c6_parallel_resolution_merge.2.2.1
     (.ok (.obj [(valueKey, .arr [sampleRec 1])]))
     (.ok (.obj [(valueKey, .arr [sampleRec 2])])) rfl rfl⟩

/-- C7: a successful HTTP status whose body starts with the HTML
document marker makes the response handling raise the
unexpected-payload error — whatever the JSON parser would say — and
never return the payload as data. -/
theorem c7_html_payload_rejected
    (parse : List Char → Option Json) (status : Nat)
    (statusText : List Char) (text : List Char)
    (hhtml : "<!DOCTYPE html>".toList.isPrefixOf text = true) :
    processResponse parse true status statusText (some text) =
      .error (.unexpectedPayload (text.take 100)) ∧
    ∀ j : Option Json,
      processResponse parse true status statusText (some text) ≠ .ok j := by
  have hne : text.isEmpty = false := by
    cases text
    · exact absurd hhtml (by decide)
    · rfl
  have hdet : isHtmlPayload text = true := by
    unfold isHtmlPayload
    rw [hhtml]
    rfl
  have hmain : processResponse parse true status statusText (some text) =
      .error (.unexpectedPayload (text.take 100)) := by
    simp [processResponse, hne, hdet]
  exact ⟨hmain, fun j => by simp [hmain]⟩

/-- Witness for C7: a concrete HTML login page behind a 200 status is
rejected for any parser, here the parser that accepts everything as
`null`. -/
theorem c7_html_payload_witness :
    "<!DOCTYPE html>".toList.isPrefixOf
        "<!DOCTYPE html><html>login</html>".toList = true ∧
    processResponse (fun _ => some .null) true 200 "OK".toList
        (some "<!DOCTYPE html><html>login</html>".toList) =
      .error (.unexpectedPayload
        ("<!DOCTYPE html><html>login</html>".toList.take 100)) :=
  ⟨by decide,
   (c7_html_payload_rejected (fun _ => some .null) 200 "OK".toList
     "<!DOCTYPE html><html>login</html>".toList (by decide)).1⟩

/-- Counterexample to C8 as stated: a successful exchange whose
response carries a token but no expiry does not replace the cached
credential wholesale — the resulting credential keeps the prior
expiration, so two different prior credentials give two different
post-success credentials under the very same provider response. -/
theorem c8_counterexample :
    (authenticate (.ok (some ⟨some "NEW".toList, none⟩)) 1000
        ⟨some "old".toList, some 999⟩).state =
      ⟨some "NEW".toList, some 999⟩ ∧
    (authenticate (.ok (some ⟨some "NEW".toList, none⟩)) 1000
        ⟨some "old".toList, some 777⟩).state =
      ⟨some "NEW".toList, some 777⟩ ∧
    (authenticate (.ok (some ⟨some "NEW".toList, none⟩)) 1000
        ⟨some "old".toList, some 999⟩).state ≠
      (authenticate (.ok (some ⟨some "NEW".toList, none⟩)) 1000
        ⟨some "old".toList, some 777⟩).state := by
  refine ⟨rfl, rfl, ?_⟩
  intro h
  have h2 : (some (999 : Int)) = some (777 : Int) :=
    congrArg AuthState.tokenExpiration h
  simp at h2

/-- C8 (amended): every failing exchange raises an authentication error
and leaves both cached fields exactly as they were; a successful
exchange stores the new token, and replaces the expiration only when
the response carries an expiry, otherwise the previous expiration
persists. -/
theorem c8_failure_leaves_credential_untouched :
    (∀ (now : Int) (s : AuthState) (msg : List Char),
       cacheValid now s.tokenExpiration = false →
       authenticate (.error msg) now s =
         ⟨.error (.authenticationError msg), s, true⟩) ∧
    (∀ (now : Int) (s : AuthState),
       cacheValid now s.tokenExpiration = false →
       authenticate (.ok none) now s =
         ⟨.error (.authenticationError
            "response is null or invalid".toList), s, true⟩) ∧
    (∀ (now : Int) (s : AuthState) (expiresOn : Option Int),
       cacheValid now s.tokenExpiration = false →
       authenticate (.ok (some ⟨none, expiresOn⟩)) now s =
         ⟨.error (.authenticationError
            "response is null or invalid".toList), s, true⟩) ∧
    (∀ (now : Int) (s : AuthState) (expiresOn : Option Int),
       cacheValid now s.tokenExpiration = false →
       authenticate (.ok (some ⟨some [], expiresOn⟩)) now s =
         ⟨.error (.authenticationError
            "response is null or invalid".toList), s, true⟩) ∧
    (∀ (now : Int) (s : AuthState) (tok : List Char) (expiresAt : Int),
       cacheValid now s.tokenExpiration = false → tok ≠ [] →
       authenticate (.ok (some ⟨some tok, some expiresAt⟩)) now s =
         ⟨.ok (some tok),
          ⟨some tok, some (expiresAt - renewalSkewMs)⟩, true⟩) ∧
    (∀ (now : Int) (s : AuthState) (tok : List Char),
       cacheValid now s.tokenExpiration = false → tok ≠ [] →
       authenticate (.ok (some ⟨some tok, none⟩)) now s =
         ⟨.ok (some tok), ⟨some tok, s.tokenExpiration⟩, true⟩) := by
  have hemp : ∀ tok : List Char, tok ≠ [] → tok.isEmpty = false := by
    intro tok h
    cases tok
    · exact absurd rfl h
    · rfl
  refine ⟨?_, ?_, ?_, ?_, ?_, ?_⟩
  · intro now s msg h
    simp [authenticate, h]
  · intro now s h
    simp [authenticate, h]
  · intro now s expiresOn h
    simp [authenticate, h]
  · intro now s expiresOn h
    simp [authenticate, h, List.isEmpty]
  · intro now s tok expiresAt h htok
    simp [authenticate, h, hemp tok htok]
  · intro now s tok h htok
    simp [authenticate, h, hemp tok htok]

/-- Witness for C8 (amended): a rejected exchange at a concrete expired
state leaves the old token and expiration in place, and a successful
exchange with an expiry installs both new fields. -/
theorem c8_failure_witness :
    cacheValid 1000 (some (999 : Int)) = false ∧
    authenticate (.error "bad credentials".toList) 1000
        ⟨some "old".toList, some 999⟩ =
      ⟨.error (.authenticationError "bad credentials".toList),
       ⟨some "old".toList, some 999⟩, true⟩ ∧
    "NEW".toList ≠ [] ∧
    authenticate (.ok (some ⟨some "NEW".toList, some 600000⟩)) 1000
        ⟨some "old".toList, some 999⟩ =
      ⟨.ok (some "NEW".toList),
       ⟨some "NEW".toList, some (600000 - renewalSkewMs)⟩, true⟩ :=
  ⟨by decide,
   c8_failure_leaves_credential_untouched.1 1000
     ⟨some "old".toList, some 999⟩ "bad credentials".toList (by decide),
   by decide,
   c8_failure_leaves_credential_untouched.2.2.2.2.1 1000
     ⟨some "old".toList, some 999⟩ "NEW".toList 600000 (by decide)
     (by decide)⟩

/-- C10: a successful exchange whose response lacks an expiry stores the
new token but leaves the cached expiration unchanged; in particular
from a state with no stored expiration the post-exchange state still
has none, and every subsequent call — any time, any provider —
performs a fresh exchange. -/
theorem c10_missing_expiry_keeps_old_expiration :
    (∀ (now : Int) (s : AuthState) (tok : List Char),
       cacheValid now s.tokenExpiration = false → tok ≠ [] →
       (authenticate (.ok (some ⟨some tok, none⟩)) now s).result =
         .ok (some tok) ∧
       (authenticate (.ok (some ⟨some tok, none⟩)) now s).state =
         ⟨some tok, s.tokenExpiration⟩) ∧
    (∀ (now : Int) (s : AuthState) (tok : List Char)
       (idp2 : Except (List Char) (Option TokenResp)) (now2 : Int),
       s.tokenExpiration = none → tok ≠ [] →
       (authenticate idp2 now2
         ((authenticate (.ok (some ⟨some tok, none⟩)) now s).state)).exchanged
           = true) := by
  have hemp : ∀ tok : List Char, tok ≠ [] → tok.isEmpty = false := by
    intro tok h
    cases tok
    · exact absurd rfl h
    · rfl
  constructor
  · intro now s tok h htok
    constructor
    · simp [authenticate, h, hemp tok htok]
    · simp [authenticate, h, hemp tok htok]
  · intro now s tok idp2 now2 hnone htok
    have hmiss : cacheValid now s.tokenExpiration = false := by
      rw [hnone]
      rfl
    have hstate : (authenticate (.ok (some ⟨some tok, none⟩)) now s).state =
        ⟨some tok, s.tokenExpiration⟩ := by
      simp [authenticate, hmiss, hemp tok htok]
    rw [hstate]
    apply authenticate_exchanges
    rw [hnone]
    rfl

/-- Witness for C10: from a fresh instance (no cached fields), an
exchange that returns a token without an expiry stores the token, keeps
the expiration absent, and the next call exchanges again even
immediately afterwards. -/
theorem c10_missing_expiry_witness :
    cacheValid 0 ((⟨none, none⟩ : AuthState).tokenExpiration) = false ∧
    "T".toList ≠ [] ∧
    (⟨none, none⟩ : AuthState).tokenExpiration = none ∧
    (authenticate (.ok (some ⟨some "T".toList, none⟩)) 0
        ⟨none, none⟩).result = .ok (some "T".toList) ∧
    (authenticate (.ok (some ⟨some "T".toList, none⟩)) 0
        ⟨none, none⟩).state = ⟨some "T".toList, none⟩ ∧
    (authenticate (.ok (some ⟨some "T".toList, some 600000⟩)) 1
      ((authenticate (.ok (some ⟨some "T".toList, none⟩)) 0
          ⟨none, none⟩).state)).exchanged = true :=
  ⟨rfl, by decide, rfl,
   (c10_missing_expiry_keeps_old_expiration.1 0 ⟨none, none⟩ "T".toList
     rfl (by decide)).1,
   (c10_missing_expiry_keeps_old_expiration.1 0 ⟨none, none⟩ "T".toList
     rfl (by decide)).2,
   c10_missing_expiry_keeps_old_expiration.2 0 ⟨none, none⟩ "T".toList
     (.ok (some ⟨some "T".toList, some 600000⟩)) 1 rfl (by decide)⟩

/-- Counterexample to C9 as stated: an endpoint with two leading slashes
keeps its second slash, so the join has two slashes between base and
path, while the claimed exactly-one-slash join has one. -/
theorem c9_counterexample :
    resolveRequestUrl "https://x".toList "//foo".toList =
      "https://x//foo".toList ∧
    claimedSingleSlashJoin "https://x".toList "//foo".toList =
      "https://x/foo".toList ∧
    resolveRequestUrl "https://x".toList "//foo".toList ≠
      claimedSingleSlashJoin "https://x".toList "//foo".toList := by
  refine ⟨by decide, by decide, ?_⟩
  intro h
  have h2 : ("https://x//foo".toList : List Char) =
      "https://x/foo".toList := by
    calc ("https://x//foo".toList : List Char)
        = resolveRequestUrl "https://x".toList "//foo".toList := by decide
      _ = claimedSingleSlashJoin "https://x".toList "//foo".toList := h
      _ = "https://x/foo".toList := by decide
  exact absurd h2 (by decide)

/-- C9 (amended): `makeApiRequest` passes an absolute http(s) endpoint
through unchanged; otherwise it strips at most one trailing slash from
the base and at most one leading slash from the endpoint and joins with
a single slash — which yields exactly one separating slash whenever the
base has at most one trailing slash and the endpoint at most one
leading slash. -/
theorem c9_url_join_single_slash :
    (∀ base endpoint : List Char, isAbsoluteHttpUrl endpoint = true →
       resolveRequestUrl base endpoint = endpoint) ∧
    (∀ base endpoint : List Char, isAbsoluteHttpUrl endpoint = false →
       (base.getLast? = some '/' → base.dropLast.getLast? ≠ some '/') →
       (∀ t : List Char, endpoint = '/' :: t → t.head? ≠ some '/') →
       resolveRequestUrl base endpoint =
         stripOneTrailingSlash base ++ '/' :: stripOneLeadingSlash endpoint ∧
       (stripOneTrailingSlash base).getLast? ≠ some '/' ∧
       (stripOneLeadingSlash endpoint).head? ≠ some '/') := by
  constructor
  · intro base endpoint h
    simp [resolveRequestUrl, h]
  · intro base endpoint habs hbase hep
    refine ⟨by simp [resolveRequestUrl, habs], ?_, ?_⟩
    · unfold stripOneTrailingSlash
      by_cases hb : base.getLast? = some '/'
      · rw [if_pos hb]
        exact hbase hb
      · rw [if_neg hb]
        exact hb
    · cases endpoint with
      | nil => simp [stripOneLeadingSlash]
      | cons c t =>
          by_cases hc : c = '/'
          · subst hc
            simp only [stripOneLeadingSlash, if_pos rfl]
            exact hep t rfl
          · simp only [stripOneLeadingSlash, if_neg hc, List.head?_cons]
            intro h
            exact hc (Option.some.inj h)

/-- Witness for C9 (amended): base with one trailing slash and endpoint
with one leading slash join with exactly one slash; an absolute
continuation link passes through. -/
theorem c9_url_join_witness :
    isAbsoluteHttpUrl "https://env.example/page2".toList = true ∧
    resolveRequestUrl "https://x".toList
        "https://env.example/page2".toList =
      "https://env.example/page2".toList ∧
    isAbsoluteHttpUrl "/data/CustomersV3".toList = false ∧
    ("https://x/".toList.getLast? = some '/' →
      "https://x/".toList.dropLast.getLast? ≠ some '/') ∧
    (∀ t : List Char, "/data/CustomersV3".toList = '/' :: t →
      t.head? ≠ some '/') ∧
    resolveRequestUrl "https://x/".toList "/data/CustomersV3".toList =
      stripOneTrailingSlash "https://x/".toList ++
        '/' :: stripOneLeadingSlash "/data/CustomersV3".toList ∧
    (stripOneTrailingSlash "https://x/".toList).getLast? ≠ some '/' ∧
    (stripOneLeadingSlash "/data/CustomersV3".toList).head? ≠ some '/' := by
  have hone : ∀ t : List Char, "/data/CustomersV3".toList = '/' :: t →
      t.head? ≠ some '/' := by
    intro t ht h
    have h0 : ('/' :: "data/CustomersV3".toList : List Char) = '/' :: t := ht
    injection h0 with h1 h2
    rw [← h2] at h
    exact absurd h (by decide)
  have hmain := c9_url_join_single_slash.2 "https://x/".toList
    "/data/CustomersV3".toList (by decide) (by decide) hone
  exact ⟨by decide,
    c9_url_join_single_slash.1 "https://x".toList
      "https://env.example/page2".toList (by decide),
    by decide, by decide, hone, hmain.1, hmain.2.1, hmain.2.2⟩

end D365
